import Mathlib

/-!
Verification development for the recipe-generator integration layer.

The TypeScript source is shallowly embedded in Lean: pure template
functions become Lean functions on strings; the asynchronous calls to
the hosted inference APIs and to the document store become explicit
parameters (`Except Unit _` outcomes supplied by the environment); a
thrown JavaScript `Error` becomes `Except.error` carrying the thrown
message; JavaScript `null`/`undefined` results become `Option`.
Every embedded operation additionally returns the list of log-write
attempts it made against the document store, so that best-effort
logging behaviour is observable in the model.
-/

/-- Modelled from the spec: `Ingredient` is declared in `../types/index`,
which is not part of the provided sources; the spec gives its shape as
`{name: string, quantity: string}`. -/
structure Ingredient where
  name : String
  quantity : String
deriving Repr, DecidableEq

/-- Modelled from the spec: `DietaryPreference` is a plain string label. -/
abbrev DietaryPreference := String

/-- Modelled from the spec: the `additionalInformation` sub-object of a
`Recipe` as declared in `../types/index`. -/
structure AdditionalInformation where
  tips : String
  variations : String
  servingSuggestions : String
  nutritionalInformation : String
deriving Repr, DecidableEq

/-- Modelled from the spec: `Recipe` as declared in `../types/index`:
`{name, ingredients, instructions, dietaryPreference, additionalInformation}`. -/
structure Recipe where
  name : String
  ingredients : List Ingredient
  instructions : List String
  dietaryPreference : List String
  additionalInformation : AdditionalInformation
deriving Repr, DecidableEq

/-- Hexadecimal digit character for a value below 16 (lower case, as
produced by JavaScript string escaping). -/
def hexDigitChar (n : Nat) : Char :=
  if n < 10 then Char.ofNat (48 + n) else Char.ofNat (87 + n)

/-- Escape one character the way `JSON.stringify` escapes characters
inside a JavaScript string literal. -/
def jsonEscapeChar (c : Char) : String :=
  if c = '"' then "\\\""
  else if c = '\\' then "\\\\"
  else if c = '\x08' then "\\b"
  else if c = '\x0c' then "\\f"
  else if c = '\n' then "\\n"
  else if c = '\r' then "\\r"
  else if c = '\t' then "\\t"
  else if c.toNat < 32 then
    String.mk ['\\', 'u', '0', '0', hexDigitChar (c.toNat / 16), hexDigitChar (c.toNat % 16)]
  else String.mk [c]

/-- Escape a whole string the way `JSON.stringify` does. -/
def jsonEscape (s : String) : String :=
  String.join (s.data.map jsonEscapeChar)

/-- The result of `JSON.stringify` on one `Ingredient` object (keys are
serialised in declaration order, as V8 does for plain objects). -/
def stringifyIngredient (i : Ingredient) : String :=
  "\x7b\"name\":\"" ++ jsonEscape i.name ++ "\",\"quantity\":\"" ++ jsonEscape i.quantity ++ "\"\x7d"

/-- The result of `JSON.stringify` on an `Ingredient[]` array. -/
def stringifyIngredients (is : List Ingredient) : String :=
  "[" ++ String.intercalate "," (is.map stringifyIngredient) ++ "]"

/-- Embedding of `getRecipeGenerationPrompt` (src/unnamed/part_000 lines
29-55): a template literal starting and ending with a newline,
interpolating `JSON.stringify(ingredients)` and, when the preference
list is non-empty, the comma-joined preferences. -/
def getRecipeGenerationPrompt (ingredients : List Ingredient) (dietaryPreferences : List DietaryPreference) : String :=
  "\nI have the following ingredients: " ++ stringifyIngredients ingredients ++ " " ++
  (if dietaryPreferences.length ≠ 0 then
    "and dietary preferences: " ++ String.intercalate "," dietaryPreferences
  else "") ++
  ". Please provide me with three different delicious recipes. The response should be in the following JSON format without any additional text or markdown:\n" ++
  "[\n" ++
  "    \x7b\n" ++
  "        \"name\": \"Recipe Name\",\n" ++
  "        \"ingredients\": [\n" ++
  "            \x7b\"name\": \"Ingredient 1\", \"quantity\": \"quantity and unit\"\x7d,\n" ++
  "            \x7b\"name\": \"Ingredient 2\", \"quantity\": \"quantity and unit\"\x7d,\n" ++
  "            ...\n" ++
  "        ],\n" ++
  "        \"instructions\": [\n" ++
  "            \"Step 1\",\n" ++
  "            \"Step 2\",\n" ++
  "            ...\n" ++
  "        ],\n" ++
  "        \"dietaryPreference\": [\"Preference 1\", \"Preference 2\", ...],\n" ++
  "        \"additionalInformation\": \x7b\n" ++
  "            \"tips\": \"Some cooking tips or advice.\",\n" ++
  "            \"variations\": \"Possible variations of the recipe.\",\n" ++
  "            \"servingSuggestions\": \"Suggestions for serving the dish.\",\n" ++
  "            \"nutritionalInformation\": \"Nutritional information about the recipe.\"\n" ++
  "        \x7d\n" ++
  "    \x7d,\n" ++
  "    ...\n" ++
  "]\n" ++
  "Please ensure the recipes are diverse and use the ingredients listed. The recipes should follow the dietary preferences provided. The instructions should be ordered but not include the step numbers.\n"

/-- Embedding of `getImageGenerationPrompt` (src/unnamed/part_000 lines
57-61): joins the ingredient names with a comma and a space and embeds
them together with the recipe name in one descriptive sentence. -/
def getImageGenerationPrompt (recipeName : String) (ingredients : List Ingredient) : String :=
  "Create an image of a delicious " ++ recipeName ++ " made of these ingredients: " ++
  String.intercalate ", " (ingredients.map (fun ingredient => ingredient.name)) ++
  ". The image should be visually appealing and showcase the dish in an appetizing manner."

/-- Embedding of `getIngredientValidationPrompt` (src/unnamed/part_000
lines 63-74). -/
def getIngredientValidationPrompt (ingredientName : String) : String :=
  "You are a food ingredient validation assistant. Given this ingredient name: " ++ ingredientName ++
  ", you will respond with a JSON object in the following format:\n\n" ++
  "\x7b\n" ++
  "  \"isValid\": true/false,\n" ++
  "  \"possibleVariations\": [\"variation1\", \"variation2\", \"variation3\"]\n" ++
  "\x7d\n\n" ++
  "The \"isValid\" field should be true if the ingredient is commonly used in recipes and false otherwise. The \"possibleVariations\" field should be an array containing 2 or 3 variations or related ingredients to the provided ingredient name. If no variations or related ingredients are real and commonly used, return an empty array.\n\n" ++
  "Do not include any Markdown formatting or code blocks in your response. Return only valid JSON."

/-- Boolean test that `pat` is a prefix of `cs` (plain character lists,
so that the kernel can evaluate it on concrete prompts). -/
def charsHavePre (pat : List Char) (cs : List Char) : Bool :=
  match pat, cs with
  | [], _ => true
  | _ :: _, [] => false
  | a :: pat', b :: cs' => a == b && charsHavePre pat' cs'

/-- Boolean test that `pat` occurs as a contiguous run inside `cs`. -/
def charsContain (pat : List Char) (cs : List Char) : Bool :=
  match cs with
  | [] => charsHavePre pat []
  | _ :: rest => charsHavePre pat cs || charsContain pat rest

/-- Substring occurrence test on strings, via the character lists. -/
def strContainsSub (s pat : String) : Bool :=
  charsContain pat.data s.data

example : strContainsSub (getIngredientValidationPrompt "tofu") "tofu" = true := by decide

/-!
A model of the JavaScript runtime pieces the source relies on:
`String.prototype.trim` and `JSON.parse`. `JSON.parse` follows the JSON
grammar (RFC 8259): whitespace-insensitive values built from `null`,
booleans, number literals, strings with escapes, arrays and objects.
Number values are kept as their lexeme, since no claim depends on
numeric semantics.
-/

/-- JSON values as produced by `JSON.parse`. -/
inductive Json where
  | null : Json
  | bool (b : Bool) : Json
  | num (lit : String) : Json
  | str (s : String) : Json
  | arr (elems : List Json) : Json
  | obj (fields : List (String × Json)) : Json

/-- JSON insignificant whitespace (RFC 8259 section 2). -/
def isJsonWs (c : Char) : Bool :=
  c = ' ' || c = '\t' || c = '\n' || c = '\r'

/-- Skip insignificant whitespace. -/
def skipWs (cs : List Char) : List Char :=
  cs.dropWhile isJsonWs

/-- Whitespace removed by JavaScript `String.prototype.trim` (ECMA-262
WhiteSpace and LineTerminator). -/
def isJsTrimWs (c : Char) : Bool :=
  c = ' ' || c = '\t' || c = '\n' || c = '\r' || c = '\x0b' || c = '\x0c' ||
  c = ' ' || c = '﻿' || c = ' ' || c = ' '

/-- Embedding of JavaScript `s.trim()`. -/
def jsTrim (s : String) : String :=
  String.mk (((s.data.dropWhile isJsTrimWs).reverse.dropWhile isJsTrimWs).reverse)

/-- Value of a hexadecimal digit, if the character is one. -/
def hexVal (c : Char) : Option Nat :=
  if '0' ≤ c ∧ c ≤ '9' then some (c.toNat - 48)
  else if 'a' ≤ c ∧ c ≤ 'f' then some (c.toNat - 87)
  else if 'A' ≤ c ∧ c ≤ 'F' then some (c.toNat - 65 + 10)
  else none

/-- Read exactly four hexadecimal digits (a `\u` escape payload). -/
def parseHex4 (cs : List Char) : Option (Nat × List Char) :=
  match cs with
  | c1 :: c2 :: c3 :: c4 :: rest =>
    match hexVal c1, hexVal c2, hexVal c3, hexVal c4 with
    | some v1, some v2, some v3, some v4 =>
      some (((v1 * 16 + v2) * 16 + v3) * 16 + v4, rest)
    | _, _, _, _ => none
  | _ => none

/-- Parse the body of a JSON string literal, the opening quote already
consumed; returns the decoded string and the remaining input. Fuelled
recursion: each step consumes at least one character. -/
def parseStrBody (fuel : Nat) (cs : List Char) : Option (String × List Char) :=
  match fuel with
  | 0 => none
  | fuel + 1 =>
    match cs with
    | [] => none
    | c :: rest =>
      if c = '"' then some ("", rest)
      else if c = '\\' then
        match rest with
        | [] => none
        | e :: rest' =>
          let step := fun (decoded : Char) (after : List Char) =>
            match parseStrBody fuel after with
            | some (tailStr, rem) => some (String.mk (decoded :: tailStr.data), rem)
            | none => none
          if e = '"' then step '"' rest'
          else if e = '\\' then step '\\' rest'
          else if e = '/' then step '/' rest'
          else if e = 'b' then step '\x08' rest'
          else if e = 'f' then step '\x0c' rest'
          else if e = 'n' then step '\n' rest'
          else if e = 'r' then step '\r' rest'
          else if e = 't' then step '\t' rest'
          else if e = 'u' then
            match parseHex4 rest' with
            | some (n, rem) => step (Char.ofNat n) rem
            | none => none
          else none
      else if c.toNat < 32 then none
      else
        match parseStrBody fuel rest with
        | some (tailStr, rem) => some (String.mk (c :: tailStr.data), rem)
        | none => none

/-- Longest leading run of decimal digits. -/
def takeDigits (cs : List Char) : List Char × List Char :=
  (cs.takeWhile Char.isDigit, cs.dropWhile Char.isDigit)

/-- Parse the optional exponent part of a JSON number, appending its
characters to the lexeme accumulated so far. -/
def parseExpPart (acc : List Char) (cs : List Char) : Option (List Char × List Char) :=
  match cs with
  | e :: rest =>
    if e = 'e' || e = 'E' then
      let signAndRest : List Char × List Char :=
        match rest with
        | '+' :: r => (['+'], r)
        | '-' :: r => (['-'], r)
        | _ => ([], rest)
      let ds := takeDigits signAndRest.2
      if ds.1.isEmpty then none
      else some (acc ++ [e] ++ signAndRest.1 ++ ds.1, ds.2)
    else some (acc, cs)
  | [] => some (acc, [])

/-- Parse the optional fraction part of a JSON number, then the exponent. -/
def parseFracExp (acc : List Char) (cs : List Char) : Option (List Char × List Char) :=
  match cs with
  | '.' :: rest =>
    let ds := takeDigits rest
    if ds.1.isEmpty then none
    else parseExpPart (acc ++ ['.'] ++ ds.1) ds.2
  | _ => parseExpPart acc cs

/-- Parse a JSON number lexeme (RFC 8259 section 6: optional minus,
integer part with no leading zero, optional fraction, optional
exponent). -/
def parseNumber (cs : List Char) : Option (List Char × List Char) :=
  let signAndRest : List Char × List Char :=
    match cs with
    | '-' :: r => (['-'], r)
    | _ => ([], cs)
  match signAndRest.2 with
  | [] => none
  | c :: rest =>
    if c = '0' then
      match rest with
      | d :: _ =>
        if d.isDigit then none
        else parseFracExp (signAndRest.1 ++ ['0']) rest
      | [] => parseFracExp (signAndRest.1 ++ ['0']) []
    else if c.isDigit then
      let ds := takeDigits signAndRest.2
      parseFracExp (signAndRest.1 ++ ds.1) ds.2
    else none

/-- Consume the exact literal `lit` from the front of `cs`. -/
def stripLit (lit : List Char) (cs : List Char) : Option (List Char) :=
  match lit, cs with
  | [], rest => some rest
  | l :: lit', c :: cs' => if l = c then stripLit lit' cs' else none
  | _ :: _, [] => none

mutual

/-- Parse one JSON value (leading whitespace allowed); fuelled by the
input length, each recursive call following at least one consumed
character. -/
def parseVal (fuel : Nat) (cs : List Char) : Option (Json × List Char) :=
  match fuel with
  | 0 => none
  | fuel + 1 =>
    match skipWs cs with
    | [] => none
    | c :: rest =>
      if c = '\x7b' then
        match skipWs rest with
        | '\x7d' :: rest2 => some (Json.obj [], rest2)
        | rest2 =>
          match parseObjItems fuel rest2 with
          | some (fs, rem) => some (Json.obj fs, rem)
          | none => none
      else if c = '[' then
        match skipWs rest with
        | ']' :: rest2 => some (Json.arr [], rest2)
        | rest2 =>
          match parseArrItems fuel rest2 with
          | some (xs, rem) => some (Json.arr xs, rem)
          | none => none
      else if c = '"' then
        match parseStrBody (rest.length + 1) rest with
        | some (s, rem) => some (Json.str s, rem)
        | none => none
      else if c = 't' then
        match stripLit ['r', 'u', 'e'] rest with
        | some rem => some (Json.bool true, rem)
        | none => none
      else if c = 'f' then
        match stripLit ['a', 'l', 's', 'e'] rest with
        | some rem => some (Json.bool false, rem)
        | none => none
      else if c = 'n' then
        match stripLit ['u', 'l', 'l'] rest with
        | some rem => some (Json.null, rem)
        | none => none
      else if c = '-' ∨ c.isDigit then
        match parseNumber (c :: rest) with
        | some (lexeme, rem) => some (Json.num (String.mk lexeme), rem)
        | none => none
      else none

/-- Parse the comma-separated elements of a non-empty JSON array, up to
and including the closing bracket. -/
def parseArrItems (fuel : Nat) (cs : List Char) : Option (List Json × List Char) :=
  match fuel with
  | 0 => none
  | fuel + 1 =>
    match parseVal fuel cs with
    | some (v, rest) =>
      match skipWs rest with
      | ',' :: rest2 =>
        match parseArrItems fuel rest2 with
        | some (xs, rem) => some (v :: xs, rem)
        | none => none
      | ']' :: rest2 => some ([v], rest2)
      | _ => none
    | none => none

/-- Parse the comma-separated members of a non-empty JSON object, up to
and including the closing brace. -/
def parseObjItems (fuel : Nat) (cs : List Char) : Option (List (String × Json) × List Char) :=
  match fuel with
  | 0 => none
  | fuel + 1 =>
    match skipWs cs with
    | '"' :: rest =>
      match parseStrBody (rest.length + 1) rest with
      | some (key, rest2) =>
        match skipWs rest2 with
        | ':' :: rest3 =>
          match parseVal fuel rest3 with
          | some (v, rest4) =>
            match skipWs rest4 with
            | ',' :: rest5 =>
              match parseObjItems fuel rest5 with
              | some (fs, rem) => some ((key, v) :: fs, rem)
              | none => none
            | '\x7d' :: rest5 => some ([(key, v)], rest5)
            | _ => none
          | none => none
        | _ => none
      | none => none
    | _ => none

end

/-- Embedding of `JSON.parse`: parse one value and require only
whitespace to remain. `none` models a thrown `SyntaxError`. -/
def jsonParse (s : String) : Option Json :=
  match parseVal (s.data.length + 1) s.data with
  | some (j, rest) => if (skipWs rest).isEmpty then some j else none
  | none => none

example : jsonParse "" = none := by rfl
example : jsonParse "not json" = none := by rfl
example : jsonParse "42" = some (Json.num "42") := by rfl
example : jsonParse "\x7b\x7d" = some (Json.obj []) := by rfl
example : jsonParse " \x7b\"isValid\": true, \"possibleVariations\": [\"a\", \"b\"]\x7d " =
    some (Json.obj [("isValid", Json.bool true),
      ("possibleVariations", Json.arr [Json.str "a", Json.str "b"])]) := by rfl

/-- Look up a field of a parsed JSON object with JavaScript semantics:
when a key is duplicated, the last occurrence wins. -/
def lookupField (fields : List (String × Json)) (key : String) : Option Json :=
  (fields.reverse.find? (fun f => f.1 = key)).map (fun f => f.2)

/-- Whether a JSON value is a string. -/
def isStrJson (j : Json) : Bool :=
  match j with
  | Json.str _ => true
  | _ => false

/-- Whether a parsed JSON value is a well-formed `ValidationResponse`
(src/unnamed/part_000 lines 183-186): an object carrying a boolean
`isValid` field and a `possibleVariations` field holding an array of
strings. -/
def isValidationResponseB (j : Json) : Bool :=
  match j with
  | Json.obj fields =>
    (match lookupField fields "isValid" with
     | some (Json.bool _) => true
     | _ => false)
    &&
    (match lookupField fields "possibleVariations" with
     | some (Json.arr xs) => xs.all isStrJson
     | _ => false)
  | _ => false

/-!
Embeddings of the stateful functions. The environment supplies:
  * for a text-generation call, its outcome `Except Unit HfResponse`
    (`error` models a rejected SDK promise);
  * for image generation, a map from prompt to outcome;
  * for the document store, the outcome `Except Unit String` of the
    insert (`ok` carries the created `_id`, `error` models a thrown
    driver error).
Each embedded function returns its caller-visible outcome
(`Except String _`, `error` carrying the thrown `Error` message) paired
with the list of log-write attempts it made.
-/

/-- The response shape of the hosted text-generation API. -/
structure HfResponse where
  generated_text : String
deriving Repr, DecidableEq

/-- Modelled from the spec: an item of the image response's `data`
array; the spec (section 6) gives the response shape as
`{data: [{url}]}`. -/
structure ImageItem where
  url : String
deriving Repr, DecidableEq

/-- Modelled from the spec: the image-generation API response
`{data: [{url}]}`. -/
structure ImagesResponse where
  data : List ImageItem
deriving Repr, DecidableEq

/-- The payload stored by a log write: the raw response object. -/
inductive LoggedResponse where
  | textGen (r : HfResponse) : LoggedResponse
  | images (rs : List ImagesResponse) : LoggedResponse
deriving Repr, DecidableEq

/-- One attempted document-store insert of `{userId, prompt, response}`. -/
structure LogRecord where
  userId : String
  prompt : String
  response : LoggedResponse
deriving Repr, DecidableEq

/-- Embedding of `saveOpenaiResponses` (src/unnamed/part_000 lines
14-27): attempts the insert and returns the created id, or `none` when
the store fails — the failure is caught inside, so the caller never
sees an exception. The second component records the attempt. -/
def saveOpenaiResponses (db : Except Unit String) (userId : String) (prompt : String)
    (response : LoggedResponse) : Option String × List LogRecord :=
  ((match db with
    | Except.ok id => some id
    | Except.error _ => none),
   [⟨userId, prompt, response⟩])

/-- JavaScript `x || d` on a possibly-null string: `null` and the empty
string are falsy. -/
def jsOrElse (x : Option String) (d : String) : String :=
  match x with
  | some s => if s = "" then d else s
  | none => d

/-- The `ResponseType` returned by `generateRecipe` (src/unnamed/part_000
lines 76-79). The source annotates `recipes` as `string | null`, but the
value assigned is always the API's `generated_text` string. -/
structure RecipeResult where
  recipes : String
  openaiPromptId : String
deriving Repr, DecidableEq

/-- Embedding of `generateRecipe` (src/unnamed/part_000 lines 86-113):
builds the prompt, performs the text-generation call, logs best-effort,
and returns the generated text with the log id (sentinel
`"null-prompt-id"` when the log write failed); any SDK failure is
rethrown as the generic message. -/
def generateRecipe (ingredients : List Ingredient) (dietaryPreferences : List DietaryPreference)
    (userId : String) (api : Except Unit HfResponse) (db : Except Unit String) :
    Except String RecipeResult × List LogRecord :=
  match api with
  | Except.error _ => (Except.error "Failed to generate recipe", [])
  | Except.ok response =>
    let saved := saveOpenaiResponses db userId
      (getRecipeGenerationPrompt ingredients dietaryPreferences) (LoggedResponse.textGen response)
    (Except.ok ⟨response.generated_text, jsOrElse saved.1 "null-prompt-id"⟩, saved.2)

/-- Embedding of `generateImage` (src/unnamed/part_000 lines 135-149):
the request outcome comes straight from the environment. The source's
try/catch wraps only the synchronous promise construction, so an
asynchronous rejection propagates unchanged to the caller. -/
def generateImage (api : String → Except Unit ImagesResponse) (prompt : String) :
    Except Unit ImagesResponse :=
  api prompt

/-- The image prompts issued by `generateImages`, one per recipe. -/
def imagePrompts (recipes : List Recipe) : List String :=
  recipes.map (fun recipe => getImageGenerationPrompt recipe.name recipe.ingredients)

/-- Embedding of `Promise.all` over already-issued requests: all
succeed, or the batch rejects. -/
def collectAll {α : Type} : List (Except Unit α) → Except Unit (List α)
  | [] => Except.ok []
  | x :: xs =>
    match x with
    | Except.error e => Except.error e
    | Except.ok y =>
      match collectAll xs with
      | Except.error e => Except.error e
      | Except.ok ys => Except.ok (y :: ys)

/-- One element of the list returned by `generateImages`. -/
structure ImageWithName where
  imgLink : String
  name : String
deriving Repr, DecidableEq

/-- The pairing step of `generateImages` (src/unnamed/part_000 lines
163-168): reads `data[0].url` of each response. `none` models the
`TypeError` thrown by the member access when `data` is empty (property
read on `undefined`). -/
def buildImagePairs : List ImagesResponse → List Recipe → Option (List ImageWithName)
  | [], [] => some []
  | resp :: rs, recipe :: recs =>
    (match resp.data with
     | [] => none
     | d0 :: _ =>
       match buildImagePairs rs recs with
       | some rest => some (⟨d0.url, recipe.name⟩ :: rest)
       | none => none)
  | _, _ => none

/-- The log prompt written by `generateImages` for the whole batch. -/
def imagesLogPrompt (recipes : List Recipe) : String :=
  "Image generation for recipe names " ++
  String.intercalate " ," (recipes.map Recipe.name) ++ " (note: not exact prompt)"

/-- Embedding of `generateImages` (src/unnamed/part_000 lines 151-176):
issues one request per recipe, awaits them all, logs the batch
best-effort, then pairs each first image URL with its recipe name; any
rejection — including the `TypeError` on an empty `data` array — is
caught and rethrown as the generic message. -/
def generateImages (recipes : List Recipe) (userId : String)
    (api : String → Except Unit ImagesResponse) (db : Except Unit String) :
    Except String (List ImageWithName) × List LogRecord :=
  match collectAll ((imagePrompts recipes).map (generateImage api)) with
  | Except.error _ => (Except.error "Failed to generate image", [])
  | Except.ok images =>
    let saved := saveOpenaiResponses db userId (imagesLogPrompt recipes)
      (LoggedResponse.images images)
    match buildImagePairs images recipes with
    | some pairs => (Except.ok pairs, saved.2)
    | none => (Except.error "Failed to generate image", saved.2)

/-- Embedding of `validateIngredient` (src/unnamed/part_000 lines
193-234): performs the text-generation call; an empty response text
yields `null` without logging; a non-empty text is trimmed and
JSON-parsed — on parse failure the thrown `SyntaxError` is caught and
`null` returned without logging, on success the exchange is logged
best-effort and the parsed value returned as-is; an SDK failure is
rethrown as the generic message. -/
def validateIngredient (ingredientName : String) (userId : String)
    (api : Except Unit HfResponse) (db : Except Unit String) :
    Except String (Option Json) × List LogRecord :=
  match api with
  | Except.error _ => (Except.error "Failed to validate ingredient", [])
  | Except.ok response =>
    if response.generated_text ≠ "" then
      match jsonParse (jsTrim response.generated_text) with
      | some j =>
        let saved := saveOpenaiResponses db userId
          (getIngredientValidationPrompt ingredientName) (LoggedResponse.textGen response)
        (Except.ok (some j), saved.2)
      | none => (Except.ok none, [])
    else (Except.ok none, [])

/-!
Embedding of the auth configuration callbacks
(src/src/pages/api/auth/[...nextauth].ts lines 22-32). The session and
user shapes come from the auth framework, not from the sources; the
session user is modelled with its id plus representative further fields
so that preservation is expressible.
-/

/-- Modelled from the spec: the session's user object, with the
provider-assigned id slot plus representative profile fields. -/
structure SessionUser where
  id : String
  name : String
  email : String
deriving Repr, DecidableEq

/-- Modelled from the spec: a session, carrying its user and expiry. -/
structure Session where
  user : SessionUser
  expires : String
deriving Repr, DecidableEq

/-- Modelled from the spec: the adapter's user record, carrying the
provider-assigned id. -/
structure AdapterUser where
  id : String
deriving Repr, DecidableEq

/-- Embedding of the `session` callback: writes `user.id` onto
`session.user.id` and returns the session. The `token` argument is
unused, as in the source. -/
def sessionCallback (session : Session) (token : String) (user : AdapterUser) : Session :=
  { session with user := { session.user with id := user.id } }

/-- Embedding of the `redirect` callback: returns `baseUrl` for every
requested `url`. -/
def redirectCallback (url : String) (baseUrl : String) : String :=
  baseUrl

/-!
Helper lemmas about the batch combinators.
-/

theorem collectAll_ok {α : Type} (l : List (Except Unit α))
    (h : ∀ x ∈ l, ∃ y, x = Except.ok y) :
    ∃ ys, collectAll l = Except.ok ys ∧ ys.length = l.length := by
  induction l with
  | nil => exact ⟨[], rfl, rfl⟩
  | cons x xs ih =>
    obtain ⟨y, hy⟩ := h x (List.mem_cons_self x xs)
    obtain ⟨ys, hys, hlen⟩ := ih (fun z hz => h z (List.mem_cons_of_mem x hz))
    subst hy
    exact ⟨y :: ys, by simp [collectAll, hys], by simp [hlen]⟩

theorem collectAll_err {α : Type} (l : List (Except Unit α))
    (h : ∃ x ∈ l, x = Except.error ()) :
    collectAll l = Except.error () := by
  induction l with
  | nil => simp at h
  | cons x xs ih =>
    obtain ⟨z, hz, hze⟩ := h
    rcases List.mem_cons.mp hz with rfl | hmem
    · subst hze
      simp [collectAll]
    · cases x with
      | error e => cases e; simp [collectAll]
      | ok y => simp [collectAll, ih ⟨z, hmem, hze⟩]

theorem collectAll_mem {α : Type} (l : List (Except Unit α)) (ys : List α)
    (h : collectAll l = Except.ok ys) : ∀ y ∈ ys, Except.ok y ∈ l := by
  induction l generalizing ys with
  | nil =>
    simp [collectAll] at h
    subst h
    intro y hy
    simp at hy
  | cons x xs ih =>
    cases x with
    | error e => simp [collectAll] at h
    | ok a =>
      cases hxs : collectAll xs with
      | error e => rw [collectAll, hxs] at h; simp at h
      | ok bs =>
        rw [collectAll, hxs] at h
        simp at h
        subst h
        intro y hy
        rcases List.mem_cons.mp hy with rfl | hmem
        · exact List.mem_cons_self _ _
        · exact List.mem_cons_of_mem _ (ih bs hxs y hmem)

theorem collectAll_mem_rev {α : Type} (l : List (Except Unit α)) (ys : List α)
    (h : collectAll l = Except.ok ys) : ∀ y, Except.ok y ∈ l → y ∈ ys := by
  induction l generalizing ys with
  | nil =>
    intro y hy
    simp at hy
  | cons x xs ih =>
    cases x with
    | error e => simp [collectAll] at h
    | ok a =>
      cases hxs : collectAll xs with
      | error e => rw [collectAll, hxs] at h; simp at h
      | ok bs =>
        rw [collectAll, hxs] at h
        simp at h
        subst h
        intro y hy
        rcases List.mem_cons.mp hy with heq | hmem
        · rw [Except.ok.inj heq]
          exact List.mem_cons_self _ _
        · exact List.mem_cons_of_mem _ (ih bs hxs y hmem)

theorem collectAll_getElem {α : Type} (l : List (Except Unit α)) (ys : List α)
    (h : collectAll l = Except.ok ys) :
    ∀ i : Nat, ∀ y, l[i]? = some (Except.ok y) → ys[i]? = some y := by
  induction l generalizing ys with
  | nil =>
    intro i y hy
    simp at hy
  | cons x xs ih =>
    cases x with
    | error e => simp [collectAll] at h
    | ok a =>
      cases hxs : collectAll xs with
      | error e => rw [collectAll, hxs] at h; simp at h
      | ok bs =>
        rw [collectAll, hxs] at h
        simp at h
        subst h
        intro i y hy
        cases i with
        | zero =>
          simp at hy ⊢
          exact hy
        | succ n =>
          simp at hy ⊢
          exact ih bs hxs n y hy

theorem buildImagePairs_ok (images : List ImagesResponse) (recipes : List Recipe)
    (hlen : images.length = recipes.length) (hne : ∀ r ∈ images, r.data ≠ []) :
    ∃ pairs, buildImagePairs images recipes = some pairs ∧
      pairs.length = recipes.length ∧
      pairs.map ImageWithName.name = recipes.map Recipe.name := by
  induction images generalizing recipes with
  | nil =>
    cases recipes with
    | nil => exact ⟨[], rfl, rfl, rfl⟩
    | cons _ _ => simp at hlen
  | cons resp rs ih =>
    cases recipes with
    | nil => simp at hlen
    | cons recipe recs =>
      obtain ⟨pairs, hp, hl, hm⟩ := ih recs (by simpa using hlen)
        (fun r hr => hne r (List.mem_cons_of_mem _ hr))
      have hd := hne resp (List.mem_cons_self _ _)
      cases hresp : resp.data with
      | nil => exact absurd hresp hd
      | cons d0 ds =>
        exact ⟨⟨d0.url, recipe.name⟩ :: pairs,
          by simp [buildImagePairs, hresp, hp], by simp [hl], by simp [hm]⟩

theorem buildImagePairs_none (images : List ImagesResponse) (recipes : List Recipe)
    (hlen : images.length = recipes.length) (hempty : ∃ r ∈ images, r.data = []) :
    buildImagePairs images recipes = none := by
  induction images generalizing recipes with
  | nil => simp at hempty
  | cons resp rs ih =>
    cases recipes with
    | nil => simp at hlen
    | cons recipe recs =>
      obtain ⟨r, hr, hrd⟩ := hempty
      rcases List.mem_cons.mp hr with rfl | hmem
      · simp [buildImagePairs, hrd]
      · cases hresp : resp.data with
        | nil => simp [buildImagePairs, hresp]
        | cons d0 ds =>
          simp [buildImagePairs, hresp, ih recs (by simpa using hlen) ⟨r, hmem, hrd⟩]

theorem buildImagePairs_getElem (images : List ImagesResponse) (recipes : List Recipe)
    (pairs : List ImageWithName) (h : buildImagePairs images recipes = some pairs) :
    ∀ i : Nat, ∀ resp recipe, images[i]? = some resp → recipes[i]? = some recipe →
      ∃ d0 ds, resp.data = d0 :: ds ∧ pairs[i]? = some ⟨d0.url, recipe.name⟩ := by
  induction images generalizing recipes pairs with
  | nil =>
    intro i resp recipe hi _
    simp at hi
  | cons r rs ih =>
    intro i resp recipe hi hr
    cases recipes with
    | nil => simp [buildImagePairs] at h
    | cons recipe0 recs =>
      cases hd : r.data with
      | nil => simp [buildImagePairs, hd] at h
      | cons d0 ds =>
        cases hbp : buildImagePairs rs recs with
        | none => simp [buildImagePairs, hd, hbp] at h
        | some rest =>
          have hpairs : pairs = ⟨d0.url, recipe0.name⟩ :: rest := by
            have := h
            simp [buildImagePairs, hd, hbp] at this
            exact this.symm
          subst hpairs
          cases i with
          | zero =>
            simp at hi hr
            subst hi
            subst hr
            exact ⟨d0, ds, hd, by simp⟩
          | succ n =>
            simp at hi hr
            simpa using ih recs rest hbp n resp recipe hi hr

/-!
Shared lemmas about `generateImages`, assembled from the combinator
lemmas above.
-/

theorem generateImages_ok_of_wellformed (recipes : List Recipe) (userId : String)
    (api : String → Except Unit ImagesResponse) (db : Except Unit String)
    (hall : ∀ p ∈ imagePrompts recipes, ∃ resp, api p = Except.ok resp ∧ resp.data ≠ []) :
    ∃ pairs, (generateImages recipes userId api db).1 = Except.ok pairs ∧
      pairs.length = recipes.length ∧
      pairs.map ImageWithName.name = recipes.map Recipe.name ∧
      (∀ i : Nat, ∀ recipe, recipes[i]? = some recipe →
        ∃ resp d0 ds,
          api (getImageGenerationPrompt recipe.name recipe.ingredients) = Except.ok resp ∧
          resp.data = d0 :: ds ∧ pairs[i]? = some ⟨d0.url, recipe.name⟩) := by
  have h1 : ∀ x ∈ (imagePrompts recipes).map (generateImage api), ∃ y, x = Except.ok y := by
    intro x hx
    obtain ⟨p, hp, hpx⟩ := List.mem_map.mp hx
    obtain ⟨resp, hr, _⟩ := hall p hp
    exact ⟨resp, by rw [← hpx]; simpa [generateImage] using hr⟩
  obtain ⟨images, hcoll, hlen⟩ := collectAll_ok _ h1
  have hlen' : images.length = recipes.length := by
    simpa [imagePrompts] using hlen
  have hne : ∀ r ∈ images, r.data ≠ [] := by
    intro r hr
    have hmem : Except.ok r ∈ (imagePrompts recipes).map (generateImage api) :=
      collectAll_mem _ images hcoll r hr
    obtain ⟨p, hp, hpx⟩ := List.mem_map.mp hmem
    obtain ⟨resp, hresp, hd⟩ := hall p hp
    have hgen : generateImage api p = Except.ok resp := by simpa [generateImage] using hresp
    have : resp = r := Except.ok.inj (hgen.symm.trans hpx)
    exact this ▸ hd
  obtain ⟨pairs, hbp, hplen, hpmap⟩ := buildImagePairs_ok images recipes hlen' hne
  refine ⟨pairs, ?_, hplen, hpmap, ?_⟩
  · simp only [generateImages, hcoll, hbp]
  · intro i recipe hi
    have hpIdx : (imagePrompts recipes)[i]? =
        some (getImageGenerationPrompt recipe.name recipe.ingredients) := by
      simp [imagePrompts, List.getElem?_map, hi]
    have hpmem : getImageGenerationPrompt recipe.name recipe.ingredients ∈ imagePrompts recipes :=
      List.getElem?_mem hpIdx
    obtain ⟨resp, hresp, _⟩ := hall _ hpmem
    have hres : ((imagePrompts recipes).map (generateImage api))[i]? =
        some (Except.ok resp) := by
      rw [List.getElem?_map, hpIdx]
      simp [generateImage, hresp]
    have himg : images[i]? = some resp := collectAll_getElem _ images hcoll i resp hres
    obtain ⟨d0, ds, hdata, hpair⟩ :=
      buildImagePairs_getElem images recipes pairs hbp i resp recipe himg hi
    exact ⟨resp, d0, ds, hresp, hdata, hpair⟩

theorem generateImages_err_of_failure (recipes : List Recipe) (userId : String)
    (api : String → Except Unit ImagesResponse) (db : Except Unit String)
    (h : ∃ p ∈ imagePrompts recipes, api p = Except.error ()) :
    (generateImages recipes userId api db).1 = Except.error "Failed to generate image" := by
  obtain ⟨p, hp, hperr⟩ := h
  have hcoll : collectAll ((imagePrompts recipes).map (generateImage api)) = Except.error () :=
    collectAll_err _ ⟨generateImage api p, List.mem_map_of_mem _ hp,
      by simpa [generateImage] using hperr⟩
  simp only [generateImages, hcoll]

theorem generateImages_err_of_emptyData (recipes : List Recipe) (userId : String)
    (api : String → Except Unit ImagesResponse) (db : Except Unit String)
    (hall : ∀ p ∈ imagePrompts recipes, ∃ resp, api p = Except.ok resp)
    (hempty : ∃ p ∈ imagePrompts recipes, api p = Except.ok ⟨[]⟩) :
    (generateImages recipes userId api db).1 = Except.error "Failed to generate image" := by
  have h1 : ∀ x ∈ (imagePrompts recipes).map (generateImage api), ∃ y, x = Except.ok y := by
    intro x hx
    obtain ⟨p, hp, hpx⟩ := List.mem_map.mp hx
    obtain ⟨resp, hr⟩ := hall p hp
    exact ⟨resp, by rw [← hpx]; simpa [generateImage] using hr⟩
  obtain ⟨images, hcoll, hlen⟩ := collectAll_ok _ h1
  have hlen' : images.length = recipes.length := by
    simpa [imagePrompts] using hlen
  obtain ⟨p, hp, hpe⟩ := hempty
  have hm : (⟨[]⟩ : ImagesResponse) ∈ images := by
    refine collectAll_mem_rev _ images hcoll _ ?_
    have : generateImage api p = Except.ok ⟨[]⟩ := by simpa [generateImage] using hpe
    exact this ▸ List.mem_map_of_mem _ hp
  have hbp := buildImagePairs_none images recipes hlen' ⟨⟨[]⟩, hm, rfl⟩
  simp only [generateImages, hcoll, hbp]

theorem generateImages_log_of_ok (recipes : List Recipe) (userId : String)
    (api : String → Except Unit ImagesResponse) (db : Except Unit String)
    (hall : ∀ p ∈ imagePrompts recipes, ∃ resp, api p = Except.ok resp) :
    (generateImages recipes userId api db).2.length = 1 := by
  have h1 : ∀ x ∈ (imagePrompts recipes).map (generateImage api), ∃ y, x = Except.ok y := by
    intro x hx
    obtain ⟨p, hp, hpx⟩ := List.mem_map.mp hx
    obtain ⟨resp, hr⟩ := hall p hp
    exact ⟨resp, by rw [← hpx]; simpa [generateImage] using hr⟩
  obtain ⟨images, hcoll, _⟩ := collectAll_ok _ h1
  cases hbp : buildImagePairs images recipes with
  | none => simp only [generateImages, hcoll, hbp]; rfl
  | some pairs => simp only [generateImages, hcoll, hbp]; rfl

/-!
Concrete demonstration values used by the closed witness and
counterexample theorems.
-/

/-- A concrete recipe for instantiating the batch theorems. -/
def demoRecipe : Recipe :=
  ⟨"Tofu Scramble", [⟨"tofu", "200g"⟩, ⟨"turmeric", "1 tsp"⟩],
   ["Crumble the tofu.", "Fry with turmeric."], ["vegan"],
   ⟨"Serve hot.", "Add peppers.", "With toast.", "High protein."⟩⟩

/-- An image API environment where every request succeeds with one URL. -/
def demoApiOk : String → Except Unit ImagesResponse :=
  fun _ => Except.ok ⟨[⟨"https://example.com/img.png"⟩]⟩

/-- An image API environment where every request is rejected. -/
def demoApiErr : String → Except Unit ImagesResponse :=
  fun _ => Except.error ()

/-- An image API environment whose responses carry an empty data array. -/
def demoApiEmpty : String → Except Unit ImagesResponse :=
  fun _ => Except.ok ⟨[]⟩

/-- A response text that is valid JSON and matches the
`ValidationResponse` shape. -/
def demoGoodText : String :=
  "\x7b\"isValid\": true, \"possibleVariations\": [\"silken tofu\", \"firm tofu\"]\x7d"

/-- Claim C1: for every list of N recipes, `generateImages` issues
exactly N image-generation requests, one per recipe and built from that
recipe's name and ingredients; if all N succeed (each returning a
response of the documented `{data: [{url}]}` shape) it returns exactly
N `{imgLink, name}` pairs whose i-th element carries the i-th input
recipe's name; if any one request fails, the whole call raises the
generic error and returns no partial result. -/
theorem generateImages_batch_contract (recipes : List Recipe) (userId : String)
    (api : String → Except Unit ImagesResponse) (db : Except Unit String) :
    (imagePrompts recipes).length = recipes.length ∧
    (∀ i : Nat, ∀ r, recipes[i]? = some r →
      (imagePrompts recipes)[i]? = some (getImageGenerationPrompt r.name r.ingredients)) ∧
    ((∀ p ∈ imagePrompts recipes, ∃ resp, api p = Except.ok resp ∧ resp.data ≠ []) →
      ∃ pairs, (generateImages recipes userId api db).1 = Except.ok pairs ∧
        pairs.length = recipes.length ∧
        pairs.map ImageWithName.name = recipes.map Recipe.name) ∧
    ((∃ p ∈ imagePrompts recipes, api p = Except.error ()) →
      (generateImages recipes userId api db).1 = Except.error "Failed to generate image") := by
  refine ⟨by simp [imagePrompts], ?_, ?_, ?_⟩
  · intro i r h
    simp [imagePrompts, h]
  · intro hall
    obtain ⟨pairs, hok, hlen, hmap, _⟩ :=
      generateImages_ok_of_wellformed recipes userId api db hall
    exact ⟨pairs, hok, hlen, hmap⟩
  · exact generateImages_err_of_failure recipes userId api db

/-- Witness for C1 at a concrete one-recipe batch, once with an
all-success environment and once with a failing one. -/
theorem generateImages_batch_contract_witness :
    (∃ pairs, (generateImages [demoRecipe] "u1" demoApiOk (Except.ok "id0")).1 = Except.ok pairs ∧
      pairs.length = [demoRecipe].length ∧
      pairs.map ImageWithName.name = [demoRecipe].map Recipe.name) ∧
    (generateImages [demoRecipe] "u1" demoApiErr (Except.ok "id0")).1 =
      Except.error "Failed to generate image" :=
  ⟨(generateImages_batch_contract [demoRecipe] "u1" demoApiOk (Except.ok "id0")).2.2.1
      (fun p _ => ⟨⟨[⟨"https://example.com/img.png"⟩]⟩, rfl, by simp⟩),
   (generateImages_batch_contract [demoRecipe] "u1" demoApiErr (Except.ok "id0")).2.2.2
      ⟨getImageGenerationPrompt demoRecipe.name demoRecipe.ingredients,
        by simp [imagePrompts], rfl⟩⟩

/-- Claim C2: for every response text, `validateIngredient` returns
`null` when the text is empty or when trimming and JSON-parsing it
fails, without raising; returns a well-formed
`{isValid, possibleVariations}` object when the text is valid JSON
matching that shape; and a transport/SDK failure raises the generic
error instead. -/
theorem validateIngredient_parse_contract (ingName userId text : String)
    (db : Except Unit String) :
    (text = "" →
      (validateIngredient ingName userId (Except.ok ⟨text⟩) db).1 = Except.ok none) ∧
    (jsonParse (jsTrim text) = none →
      (validateIngredient ingName userId (Except.ok ⟨text⟩) db).1 = Except.ok none) ∧
    (∀ j, jsonParse (jsTrim text) = some j → isValidationResponseB j = true →
      ∃ v, (validateIngredient ingName userId (Except.ok ⟨text⟩) db).1 =
        Except.ok (some v) ∧ isValidationResponseB v = true) ∧
    (validateIngredient ingName userId (Except.error ()) db).1 =
      Except.error "Failed to validate ingredient" := by
  refine ⟨?_, ?_, ?_, rfl⟩
  · intro h
    subst h
    rfl
  · intro h
    by_cases he : text = ""
    · subst he; rfl
    · simp [validateIngredient, he, h]
  · intro j hj hwf
    have he : text ≠ "" := by
      intro h
      subst h
      exact Option.noConfusion ((rfl : jsonParse (jsTrim "") = none).symm.trans hj)
    exact ⟨j, by simp [validateIngredient, he, hj], hwf⟩

/-- Witness for C2 at concrete response texts: empty, malformed, and
well-formed JSON, plus the SDK-failure case. -/
theorem validateIngredient_parse_contract_witness :
    (validateIngredient "tofu" "u1" (Except.ok ⟨""⟩) (Except.ok "id0")).1 = Except.ok none ∧
    (validateIngredient "tofu" "u1" (Except.ok ⟨"not json"⟩) (Except.ok "id0")).1 =
      Except.ok none ∧
    (∃ v, (validateIngredient "tofu" "u1" (Except.ok ⟨demoGoodText⟩) (Except.ok "id0")).1 =
      Except.ok (some v) ∧ isValidationResponseB v = true) ∧
    (validateIngredient "tofu" "u1" (Except.error ()) (Except.ok "id0")).1 =
      Except.error "Failed to validate ingredient" :=
  ⟨(validateIngredient_parse_contract "tofu" "u1" "" (Except.ok "id0")).1 rfl,
   (validateIngredient_parse_contract "tofu" "u1" "not json" (Except.ok "id0")).2.1 rfl,
   (validateIngredient_parse_contract "tofu" "u1" demoGoodText (Except.ok "id0")).2.2.1
     (Json.obj [("isValid", Json.bool true),
       ("possibleVariations", Json.arr [Json.str "silken tofu", Json.str "firm tofu"])])
     rfl rfl,
   (validateIngredient_parse_contract "tofu" "u1" "" (Except.ok "id0")).2.2.2⟩

/-- Claim C3: a failure of the document-store log write never changes
the caller-visible primary result of any generation call and never
raises: `generateImages` and `validateIngredient` results are
independent of the store outcome, and a `generateRecipe` result under a
failing store is exactly the result under any store outcome with the
returned id replaced by the sentinel `"null-prompt-id"`. -/
theorem logging_failure_invisible (ings : List Ingredient) (prefs : List DietaryPreference)
    (recipes : List Recipe) (ingName userId : String) (apiT : Except Unit HfResponse)
    (apiI : String → Except Unit ImagesResponse) (db db' : Except Unit String) :
    (generateImages recipes userId apiI db).1 = (generateImages recipes userId apiI db').1 ∧
    (validateIngredient ingName userId apiT db).1 =
      (validateIngredient ingName userId apiT db').1 ∧
    (generateRecipe ings prefs userId apiT (Except.error ())).1 =
      ((generateRecipe ings prefs userId apiT db).1).map
        (fun r => { r with openaiPromptId := "null-prompt-id" }) := by
  refine ⟨?_, ?_, ?_⟩
  · cases hc : collectAll ((imagePrompts recipes).map (generateImage apiI)) with
    | error e => simp only [generateImages, hc]
    | ok images =>
      cases hbp : buildImagePairs images recipes with
      | none => simp only [generateImages, hc, hbp]
      | some pairs => simp only [generateImages, hc, hbp]
  · cases apiT with
    | error e => rfl
    | ok resp =>
      by_cases he : resp.generated_text = ""
      · simp [validateIngredient, he]
      · cases hj : jsonParse (jsTrim resp.generated_text) with
        | none => simp [validateIngredient, he, hj]
        | some j => simp [validateIngredient, he, hj]
  · cases apiT with
    | error e => rfl
    | ok resp => cases db with
      | error e => rfl
      | ok id => rfl

/-- Claim C5: the three prompt builders are deterministic and
side-effect-free — equal inputs give byte-identical prompt strings. -/
theorem promptBuilders_deterministic (i1 i2 : List Ingredient)
    (p1 p2 : List DietaryPreference) (n1 n2 : String) (g1 g2 : List Ingredient)
    (v1 v2 : String) :
    (i1 = i2 → p1 = p2 → getRecipeGenerationPrompt i1 p1 = getRecipeGenerationPrompt i2 p2) ∧
    (n1 = n2 → g1 = g2 → getImageGenerationPrompt n1 g1 = getImageGenerationPrompt n2 g2) ∧
    (v1 = v2 → getIngredientValidationPrompt v1 = getIngredientValidationPrompt v2) :=
  ⟨fun h h' => by rw [h, h'], fun h h' => by rw [h, h'], fun h => by rw [h]⟩

/-- Witness for C5 at concrete equal inputs. -/
theorem promptBuilders_deterministic_witness :
    getRecipeGenerationPrompt [⟨"egg", "2"⟩] ["vegan"] =
      getRecipeGenerationPrompt [⟨"egg", "2"⟩] ["vegan"] ∧
    getImageGenerationPrompt "Omelette" [⟨"egg", "2"⟩] =
      getImageGenerationPrompt "Omelette" [⟨"egg", "2"⟩] ∧
    getIngredientValidationPrompt "tofu" = getIngredientValidationPrompt "tofu" :=
  ⟨(promptBuilders_deterministic [⟨"egg", "2"⟩] [⟨"egg", "2"⟩] ["vegan"] ["vegan"]
      "Omelette" "Omelette" [⟨"egg", "2"⟩] [⟨"egg", "2"⟩] "tofu" "tofu").1 rfl rfl,
   (promptBuilders_deterministic [⟨"egg", "2"⟩] [⟨"egg", "2"⟩] ["vegan"] ["vegan"]
      "Omelette" "Omelette" [⟨"egg", "2"⟩] [⟨"egg", "2"⟩] "tofu" "tofu").2.1 rfl rfl,
   (promptBuilders_deterministic [⟨"egg", "2"⟩] [⟨"egg", "2"⟩] ["vegan"] ["vegan"]
      "Omelette" "Omelette" [⟨"egg", "2"⟩] [⟨"egg", "2"⟩] "tofu" "tofu").2.2 rfl⟩

/-- Claim C4, counterexample: `validateIngredient` calls that succeed at
the inference-API level but whose returned text is empty (or fails to
JSON-parse) attempt no log write at all — the log-attempt trace is
empty, contradicting the claim that every inference-level success
attempts a best-effort log write. -/
theorem validateIngredient_skips_log_counterexample :
    validateIngredient "tofu" "u1" (Except.ok ⟨""⟩) (Except.ok "id0") =
      (Except.ok none, []) ∧
    validateIngredient "tofu" "u1" (Except.ok ⟨"not json"⟩) (Except.ok "id0") =
      (Except.ok none, []) :=
  ⟨rfl, rfl⟩

/-- Claim C4 as amended: `generateRecipe` attempts exactly one log write
whenever its text-generation call succeeds, and `generateImages`
attempts exactly one whenever all its image requests succeed (even when
pairing the results subsequently fails); but `validateIngredient`
attempts a log write only when the returned text is non-empty and
JSON-parses successfully — when the text is empty or malformed it
attempts none. -/
theorem logging_attempt_policy (ings : List Ingredient) (prefs : List DietaryPreference)
    (recipes : List Recipe) (ingName userId : String) (resp : HfResponse)
    (apiI : String → Except Unit ImagesResponse) (db : Except Unit String) :
    (generateRecipe ings prefs userId (Except.ok resp) db).2 =
      [⟨userId, getRecipeGenerationPrompt ings prefs, LoggedResponse.textGen resp⟩] ∧
    ((∀ p ∈ imagePrompts recipes, ∃ r, apiI p = Except.ok r) →
      (generateImages recipes userId apiI db).2.length = 1) ∧
    (resp.generated_text = "" →
      (validateIngredient ingName userId (Except.ok resp) db).2 = []) ∧
    (jsonParse (jsTrim resp.generated_text) = none →
      (validateIngredient ingName userId (Except.ok resp) db).2 = []) ∧
    (∀ j, jsonParse (jsTrim resp.generated_text) = some j →
      (validateIngredient ingName userId (Except.ok resp) db).2 =
        [⟨userId, getIngredientValidationPrompt ingName, LoggedResponse.textGen resp⟩]) := by
  refine ⟨rfl, generateImages_log_of_ok recipes userId apiI db, ?_, ?_, ?_⟩
  · intro h
    simp [validateIngredient, h]
  · intro h
    by_cases he : resp.generated_text = ""
    · simp [validateIngredient, he]
    · simp [validateIngredient, he, h]
  · intro j hj
    have he : resp.generated_text ≠ "" := by
      intro h
      rw [h] at hj
      exact Option.noConfusion ((rfl : jsonParse (jsTrim "") = none).symm.trans hj)
    simp [validateIngredient, he, hj, saveOpenaiResponses]

/-- Witness for the amended C4 at concrete environments: a recipe call,
an all-success image batch, and the three validation cases. -/
theorem logging_attempt_policy_witness :
    (generateRecipe [⟨"egg", "2"⟩] [] "u1" (Except.ok ⟨"text"⟩) (Except.ok "id0")).2 =
      [⟨"u1", getRecipeGenerationPrompt [⟨"egg", "2"⟩] [], LoggedResponse.textGen ⟨"text"⟩⟩] ∧
    (generateImages [demoRecipe] "u1" demoApiOk (Except.ok "id0")).2.length = 1 ∧
    (validateIngredient "tofu" "u1" (Except.ok ⟨""⟩) (Except.ok "id0")).2 = [] ∧
    (validateIngredient "tofu" "u1" (Except.ok ⟨"not json"⟩) (Except.ok "id0")).2 = [] ∧
    (validateIngredient "tofu" "u1" (Except.ok ⟨"42"⟩) (Except.ok "id0")).2 =
      [⟨"u1", getIngredientValidationPrompt "tofu", LoggedResponse.textGen ⟨"42"⟩⟩] :=
  ⟨(logging_attempt_policy [⟨"egg", "2"⟩] [] [] "tofu" "u1" ⟨"text"⟩ demoApiOk
      (Except.ok "id0")).1,
   (logging_attempt_policy [] [] [demoRecipe] "tofu" "u1" ⟨"text"⟩ demoApiOk
      (Except.ok "id0")).2.1
     (fun p _ => ⟨⟨[⟨"https://example.com/img.png"⟩]⟩, rfl⟩),
   (logging_attempt_policy [] [] [] "tofu" "u1" ⟨""⟩ demoApiOk (Except.ok "id0")).2.2.1 rfl,
   (logging_attempt_policy [] [] [] "tofu" "u1" ⟨"not json"⟩ demoApiOk
      (Except.ok "id0")).2.2.2.1 rfl,
   (logging_attempt_policy [] [] [] "tofu" "u1" ⟨"42"⟩ demoApiOk
      (Except.ok "id0")).2.2.2.2 (Json.num "42") rfl⟩

/-- Claim C6: `generateRecipe` on a successful text-generation response
with `generated_text` equal to `s`, called with
`[{name: "egg", quantity: "2"}]`, no preferences and user `"u1"`,
returns `{recipes: s, openaiPromptId: p}` for a (non-null) string `p`;
on any transport/SDK failure it raises the generic
`"Failed to generate recipe"` error with no partial result. -/
theorem generateRecipe_example_contract (s : String) (db : Except Unit String) :
    (∃ p : String, (generateRecipe [⟨"egg", "2"⟩] [] "u1" (Except.ok ⟨s⟩) db).1 =
      Except.ok ⟨s, p⟩) ∧
    (generateRecipe [⟨"egg", "2"⟩] [] "u1" (Except.error ()) db) =
      (Except.error "Failed to generate recipe", []) :=
  ⟨⟨_, rfl⟩, rfl⟩

/-- Claim C7: the ingredient-validation prompt for `"tofu"` contains
the literal substrings `"tofu"` and `"isValid"`. -/
theorem ingredientValidationPrompt_substrings :
    strContainsSub (getIngredientValidationPrompt "tofu") "tofu" = true ∧
    strContainsSub (getIngredientValidationPrompt "tofu") "isValid" = true :=
  ⟨by decide, by decide⟩

/-- Claim C8: the auth redirect callback returns the site base URL for
every requested URL, and the session callback copies the
provider-assigned user id onto the session's user object and returns
that session (all other session fields unchanged). -/
theorem authCallbacks_behavior (url baseUrl : String) (sess : Session) (token : String)
    (user : AdapterUser) :
    redirectCallback url baseUrl = baseUrl ∧
    (sessionCallback sess token user).user.id = user.id ∧
    (sessionCallback sess token user).user.name = sess.user.name ∧
    (sessionCallback sess token user).user.email = sess.user.email ∧
    (sessionCallback sess token user).expires = sess.expires :=
  ⟨rfl, rfl, rfl, rfl, rfl⟩

/-- Claim C9: there are response texts that are valid JSON but do not
match the `{isValid, possibleVariations}` shape — `"42"` and an empty
object — for which `validateIngredient` returns a non-null value that
is not a well-formed `ValidationResponse`: the parsed JSON is returned
without any schema validation. -/
theorem validateIngredient_no_schema_validation :
    ((validateIngredient "tofu" "u1" (Except.ok ⟨"42"⟩) (Except.ok "id0")).1 =
      Except.ok (some (Json.num "42")) ∧
      isValidationResponseB (Json.num "42") = false) ∧
    ((validateIngredient "tofu" "u1" (Except.ok ⟨"\x7b\x7d"⟩) (Except.ok "id0")).1 =
      Except.ok (some (Json.obj [])) ∧
      isValidationResponseB (Json.obj []) = false) :=
  ⟨⟨rfl, rfl⟩, ⟨rfl, rfl⟩⟩

/-- Claim C10, counterexample: a batch whose single request succeeds
with an empty `data` array does not yield a pair with an undefined
`imgLink` — the property read on the missing first element throws, the
surrounding catch converts it, and the whole call raises the generic
error. -/
theorem generateImages_emptyData_counterexample :
    (generateImages [demoRecipe] "u1" demoApiEmpty (Except.ok "id0")).1 =
      Except.error "Failed to generate image" :=
  rfl

/-- Claim C10 as amended: `generateImages` reads `data[0].url` without
checking that `data` is non-empty, but when a successful response
carries an empty `data` array the member access throws, so the whole
call raises the generic error (it returns no pair with an undefined
link); only under the precondition that every response's data array is
non-empty does it return a pair list, every `imgLink` then being the
first returned URL. -/
theorem generateImages_emptyData_behavior (recipes : List Recipe) (userId : String)
    (api : String → Except Unit ImagesResponse) (db : Except Unit String) :
    ((∀ p ∈ imagePrompts recipes, ∃ r, api p = Except.ok r) →
      (∃ p ∈ imagePrompts recipes, api p = Except.ok ⟨[]⟩) →
      (generateImages recipes userId api db).1 = Except.error "Failed to generate image") ∧
    ((∀ p ∈ imagePrompts recipes, ∃ r, api p = Except.ok r ∧ r.data ≠ []) →
      ∃ pairs, (generateImages recipes userId api db).1 = Except.ok pairs ∧
        pairs.length = recipes.length ∧
        (∀ i : Nat, ∀ recipe, recipes[i]? = some recipe →
          ∃ resp d0 ds,
            api (getImageGenerationPrompt recipe.name recipe.ingredients) = Except.ok resp ∧
            resp.data = d0 :: ds ∧ pairs[i]? = some ⟨d0.url, recipe.name⟩)) := by
  refine ⟨generateImages_err_of_emptyData recipes userId api db, ?_⟩
  intro hall
  obtain ⟨pairs, hok, hlen, _, hidx⟩ :=
    generateImages_ok_of_wellformed recipes userId api db hall
  exact ⟨pairs, hok, hlen, hidx⟩

/-- Witness for the amended C10 at a concrete one-recipe batch, once
with an empty-data success and once with a well-formed success, the
latter yielding each pair's link as the response's first URL. -/
theorem generateImages_emptyData_behavior_witness :
    (generateImages [demoRecipe] "u1" demoApiEmpty (Except.ok "id0")).1 =
      Except.error "Failed to generate image" ∧
    (∃ pairs, (generateImages [demoRecipe] "u1" demoApiOk (Except.ok "id0")).1 =
      Except.ok pairs ∧ pairs.length = [demoRecipe].length ∧
      (∀ i : Nat, ∀ recipe, [demoRecipe][i]? = some recipe →
        ∃ resp d0 ds,
          demoApiOk (getImageGenerationPrompt recipe.name recipe.ingredients) =
            Except.ok resp ∧
          resp.data = d0 :: ds ∧ pairs[i]? = some ⟨d0.url, recipe.name⟩)) :=
  ⟨(generateImages_emptyData_behavior [demoRecipe] "u1" demoApiEmpty (Except.ok "id0")).1
      (fun p _ => ⟨⟨[]⟩, rfl⟩)
      ⟨getImageGenerationPrompt demoRecipe.name demoRecipe.ingredients,
        by simp [imagePrompts], rfl⟩,
   (generateImages_emptyData_behavior [demoRecipe] "u1" demoApiOk (Except.ok "id0")).2
      (fun p _ => ⟨⟨[⟨"https://example.com/img.png"⟩]⟩, rfl, by simp⟩)⟩
